import Mathlib

/-!
Verification of the `web-ext-native-messaging` framing codec
(`src/source/lib.rs`).

The codec is a pair of generic functions:

* `generic_write_message` — serializes a message with `serde_json::to_vec`,
  narrows the byte length to `u32` (`try_into`, failing with
  `MessagingError::TryFromInt` when the length does not fit), writes the
  4-byte native-endian length with `write_u32::<NativeEndian>`, writes the
  payload with `write_all`, and finally calls `flush`.
* `generic_read_message` — reads a 4-byte native-endian `u32` length `N`
  with `read_u32::<NativeEndian>` (an `std::io` error when fewer than 4
  bytes are available), widens it to `usize` (infallible on the modeled
  64-bit host), wraps the reader in `take(N)` and hands it to
  `serde_json::from_reader`.

Embedding choices:

* Bytes are `Nat` values (< 256 in every well-formed stream); a byte
  source is a `List Nat` consumed from the front, and the reader's
  advancing cursor is modeled by returning the unconsumed suffix.
* A writer (`Vec<u8>`-like sink, as in the crate's own test) is a byte
  buffer plus a count of `flush` calls; writes to it are infallible.
* The serde `Serialize`/`Deserialize` bounds together with the fixed
  `serde_json` data format are abstracted as a `Format` structure:
  `ser` models `serde_json::to_vec` on the message type, `de` models
  `serde_json::from_reader` run on a finite byte sequence followed by
  end-of-input (exactly what the `take(N)` adapter presents: the first
  `N` available bytes, then EOF).  `from_reader` requires the value to be
  followed only by EOF inside that window, and it consumes the whole
  window on success, which is what the model's cursor arithmetic uses.
* Native byte order is instantiated as little-endian (the x86-64 host);
  both the encoder and the "interpret the first 4 bytes" functions of the
  theorems use the same `readU32Native`/`writeU32Native` pair, as the
  protocol requires.
-/

/-- Errors of the external `serde_json` serializer/deserializer, by
category: `eof` is serde_json's "EOF while parsing" category (the spec's
TruncationError), `malformed` covers rejected content, `trailing` is the
"trailing characters" error raised by `from_reader` when non-whitespace
bytes follow the value inside the read window. -/
inductive JsonErr
  | eof
  | malformed
  | trailing
deriving DecidableEq, Repr

/-- The crate's `MessagingError` enum: one constructor per `#[from]`
variant in `src/source/lib.rs`.  `Infallible` is present in the source but
never constructed.  In the spec's taxonomy `Io` is IoError, `Json .eof`
is TruncationError/DecodingError's EOF case, other `Json` values are
DecodingError/EncodingError, and `TryFromInt` is SizeError (the length
narrowing failure). -/
inductive MessagingError
  | Infallible
  | Io
  | Json (e : JsonErr)
  | TryFromInt
deriving DecidableEq, Repr

deriving instance DecidableEq for Except

/-- A serialization format bound to a message type: `ser` models
`serde_json::to_vec`, `de` models `serde_json::from_reader` applied to a
finite byte sequence that ends (EOF) after its last byte. -/
structure Format (α : Type) where
  ser : α → Except JsonErr (List Nat)
  de : List Nat → Except JsonErr α

/-- An in-memory byte sink (the `Vec<u8>` writer of the crate's test):
the bytes written so far and the number of `flush` calls. -/
structure ByteWriter where
  buf : List Nat
  flushes : Nat
deriving DecidableEq, Repr

/-- A writer with nothing written yet. -/
def emptyWriter : ByteWriter := ⟨[], 0⟩

/-- `write_u32::<NativeEndian>`: the 4 little-endian bytes of `n`
(native order on the modeled x86-64 host). -/
def writeU32Native (n : Nat) : List Nat :=
  [n % 256, n / 256 % 256, n / 2 ^ 16 % 256, n / 2 ^ 24 % 256]

/-- `read_u32::<NativeEndian>`: interpret the first 4 bytes of the list
as a native-endian (little-endian) unsigned 32-bit integer. -/
def readU32Native : List Nat → Nat
  | b0 :: b1 :: b2 :: b3 :: _ => b0 + 256 * b1 + 2 ^ 16 * b2 + 2 ^ 24 * b3
  | _ => 0

/-- `generic_read_message` from `src/source/lib.rs`: read the 4-byte
native-endian length `N` (an `Io` error if fewer than 4 bytes exist),
widen to `usize` (infallible on the 64-bit host), then run the
deserializer on the `take(N)` window — the first `N` available bytes
followed by EOF.  On success the cursor has advanced past exactly those
bytes; the unconsumed suffix is returned alongside the value. -/
def generic_read_message (fmt : Format α) (stream : List Nat) :
    Except MessagingError (α × List Nat) :=
  if stream.length < 4 then
    .error .Io
  else
    match fmt.de ((stream.drop 4).take (readU32Native (stream.take 4))) with
    | .ok m => .ok (m, (stream.drop 4).drop (readU32Native (stream.take 4)))
    | .error e => .error (.Json e)

/-- `generic_write_message` from `src/source/lib.rs`: serialize the
message, narrow its length to `u32` (`TryFromInt` error when the length
is `≥ 2^32`, before anything is written), then append the 4-byte
native-endian length and the payload to the writer and flush it. -/
def generic_write_message (fmt : Format α) (message : α) (w : ByteWriter) :
    Except MessagingError Unit × ByteWriter :=
  match fmt.ser message with
  | .error e => (.error (.Json e), w)
  | .ok message_bytes =>
    if message_bytes.length < 2 ^ 32 then
      (.ok (),
        ⟨w.buf ++ writeU32Native message_bytes.length ++ message_bytes,
          w.flushes + 1⟩)
    else
      (.error .TryFromInt, w)

/-!
Concrete model of `serde_json` for the crate's test struct
`struct Message { text: String }` (`tests::Message` in
`src/source/lib.rs`).  `serde_json::to_vec` renders it compactly as an
object with the single field, escaping `"` and backslash, the short
control escapes, and other control bytes as lowercase hex escape
sequences; `serde_json::from_reader` parses the object (whitespace
tolerated between tokens), rejects raw control bytes inside the string,
and demands end-of-input after the closing brace.  The Rust `String` is
represented by its UTF-8 byte content; non-ASCII bytes pass through both
directions unchanged, exactly as serde_json treats them.  Escape
sequences above `\u007f` (multi-byte code points) are outside the
modeled fragment and rejected; no claim exercises them. -/

/-- The crate's test struct `Message`, its `text` field as UTF-8 bytes. -/
structure Message where
  text : List Nat
deriving DecidableEq, Repr

/-- Lowercase hex digit byte for a value below 16. -/
def hexDigitChar (d : Nat) : Nat := if d < 10 then 48 + d else 87 + d

/-- Value of an ASCII hex digit byte, if it is one. -/
def hexDigitVal (b : Nat) : Option Nat :=
  if 48 ≤ b ∧ b ≤ 57 then some (b - 48)
  else if 97 ≤ b ∧ b ≤ 102 then some (b - 87)
  else if 65 ≤ b ∧ b ≤ 70 then some (b - 55)
  else none

/-- serde_json string escaping of one byte: quote and backslash get the
two-byte escapes, the named control escapes are used where they exist,
remaining control bytes become a lowercase hex escape, everything else
passes through. -/
def escapeByte (b : Nat) : List Nat :=
  if b = 34 then [92, 34]
  else if b = 92 then [92, 92]
  else if b = 8 then [92, 98]
  else if b = 9 then [92, 116]
  else if b = 10 then [92, 110]
  else if b = 12 then [92, 102]
  else if b = 13 then [92, 114]
  else if b < 32 then [92, 117, 48, 48, hexDigitChar (b / 16), hexDigitChar (b % 16)]
  else [b]

/-- Inverse of the two-byte escapes accepted by serde_json (including
the solidus, which the serializer never emits but the parser accepts). -/
def unescapeByte (b : Nat) : Option Nat :=
  if b = 34 then some 34
  else if b = 92 then some 92
  else if b = 47 then some 47
  else if b = 98 then some 8
  else if b = 116 then some 9
  else if b = 110 then some 10
  else if b = 102 then some 12
  else if b = 114 then some 13
  else none

/-- Parse a JSON string body (the bytes after the opening quote) up to
and including the closing quote, decoding escapes; raw control bytes are
rejected, running out of input is the EOF error. -/
def parseStringBody : List Nat → Except JsonErr (List Nat × List Nat)
  | [] => .error .eof
  | 34 :: rest => .ok ([], rest)
  | 92 :: 117 :: h1 :: h2 :: h3 :: h4 :: rest =>
    match hexDigitVal h1, hexDigitVal h2, hexDigitVal h3, hexDigitVal h4 with
    | some d1, some d2, some d3, some d4 =>
      let v := ((d1 * 16 + d2) * 16 + d3) * 16 + d4
      if v < 128 then
        match parseStringBody rest with
        | .ok (s, r) => .ok (v :: s, r)
        | .error e => .error e
      else .error .malformed
    | _, _, _, _ => .error .malformed
  | 92 :: [] => .error .eof
  | 92 :: c :: rest =>
    match unescapeByte c with
    | some b =>
      match parseStringBody rest with
      | .ok (s, r) => .ok (b :: s, r)
      | .error e => .error e
    | none => .error .malformed
  | b :: rest =>
    if b < 32 then .error .malformed
    else
      match parseStringBody rest with
      | .ok (s, r) => .ok (b :: s, r)
      | .error e => .error e

/-- JSON insignificant whitespace. -/
def isWsByte (b : Nat) : Bool := b == 32 || b == 9 || b == 10 || b == 13

/-- Drop leading JSON whitespace. -/
def skipWs (l : List Nat) : List Nat := l.dropWhile isWsByte

/-- Consume one expected byte; running out of input is the EOF error,
any other byte is a syntax error. -/
def expectByte (b : Nat) : List Nat → Except JsonErr (List Nat)
  | [] => .error .eof
  | c :: rest => if c = b then .ok rest else .error .malformed

/-- Consume an expected byte sequence. -/
def expectBytes : List Nat → List Nat → Except JsonErr (List Nat)
  | [], l => .ok l
  | b :: pat, l =>
    match expectByte b l with
    | .ok rest => expectBytes pat rest
    | .error e => .error e

/-- `serde_json::to_vec` on `Message`: the compact object
`\x7b"text":"<escaped text>"\x7d`. -/
def messageSer (m : Message) : Except JsonErr (List Nat) :=
  .ok ([123, 34, 116, 101, 120, 116, 34, 58, 34]
    ++ (m.text.map escapeByte).flatten ++ [34, 125])

/-- `serde_json::from_reader::<Message>` on a byte window that ends at
EOF: parse the object with its single `text` field and require only
whitespace before end-of-input afterwards. -/
def messageDe (l : List Nat) : Except JsonErr Message := do
  let l := skipWs l
  let l ← expectByte 123 l
  let l := skipWs l
  let l ← expectBytes [34, 116, 101, 120, 116, 34] l
  let l := skipWs l
  let l ← expectByte 58 l
  let l := skipWs l
  let l ← expectByte 34 l
  let (s, l) ← parseStringBody l
  let l := skipWs l
  let l ← expectByte 125 l
  match skipWs l with
  | [] => .ok ⟨s⟩
  | _ => .error .trailing

/-- The serde_json format bound to `Message`, as the crate's test uses it. -/
def MessageFmt : Format Message := ⟨messageSer, messageDe⟩

/-- The test message of `tests::test_messaging`: text is the UTF-8 bytes
of the 14-character string used there. -/
def testMessage : Message :=
  ⟨[84, 104, 105, 115, 32, 105, 115, 32, 97, 32, 116, 101, 115, 116]⟩

/-- The 25 bytes of the compact JSON rendering of `testMessage`. -/
def testJsonBytes : List Nat :=
  [123, 34, 116, 101, 120, 116, 34, 58, 34,
   84, 104, 105, 115, 32, 105, 115, 32, 97, 32, 116, 101, 115, 116,
   34, 125]

/-- A format (over `Unit`) whose serializer emits a `2 ^ 32`-byte
payload, exercising the oversize path: serde_json happily produces such
a buffer for a sufficiently long string before the length narrowing
rejects it. -/
def BigFmt : Format Unit :=
  ⟨fun _ => .ok (List.replicate (2 ^ 32) 48), fun _ => .error .malformed⟩

/-- Decoding a 4-byte native-endian field recovers any value below
`2 ^ 32` that was encoded into it. -/
theorem readU32_writeU32 (n : Nat) (h : n < 2 ^ 32) :
    readU32Native (writeU32Native n) = n := by
  simp only [writeU32Native, readU32Native]
  omega

/-- The length field is 4 bytes. -/
theorem writeU32_length (n : Nat) : (writeU32Native n).length = 4 := rfl

/-- Helper: a successful `generic_write_message` appends exactly the
length field and the payload to the writer and flushes it once. -/
theorem write_frame_eq (fmt : Format α) (m : α) (w : ByteWriter)
    (bs : List Nat) (hser : fmt.ser m = .ok bs)
    (hlen : bs.length < 2 ^ 32) :
    generic_write_message fmt m w =
      (.ok (), ⟨w.buf ++ writeU32Native bs.length ++ bs, w.flushes + 1⟩) := by
  simp only [generic_write_message, hser]
  rw [if_pos hlen]

/-- Helper: reading a stream that starts with a well-formed frame runs
the deserializer on exactly the frame's payload and leaves exactly the
bytes after the frame unconsumed. -/
theorem read_frame_eq (fmt : Format α) (bs rest : List Nat)
    (hlen : bs.length < 2 ^ 32) :
    generic_read_message fmt (writeU32Native bs.length ++ bs ++ rest) =
      match fmt.de bs with
      | .ok m => .ok (m, rest)
      | .error e => .error (.Json e) := by
  have hlen4 : (writeU32Native bs.length).length = 4 := rfl
  rw [List.append_assoc]
  have hnotlt : ¬ (writeU32Native bs.length ++ (bs ++ rest)).length < 4 := by
    simp [List.length_append, hlen4]
  have htake : (writeU32Native bs.length ++ (bs ++ rest)).take 4
      = writeU32Native bs.length := by
    rw [← hlen4]; exact List.take_left _ _
  have hdrop : (writeU32Native bs.length ++ (bs ++ rest)).drop 4
      = bs ++ rest := by
    rw [← hlen4]; exact List.drop_left _ _
  unfold generic_read_message
  rw [if_neg hnotlt, htake, hdrop, readU32_writeU32 bs.length hlen,
    List.take_left, List.drop_left]

/-- C1: round-trip law.  For every message the format can serialize
(`ser m` succeeds), whose serialization the format deserializes back to
`m`, and which fits the 32-bit length field, decoding the byte buffer
produced by `generic_write_message` with `generic_read_message` returns
exactly `m` and consumes the whole buffer. -/
theorem roundtrip_decode_encode (fmt : Format α) (m : α) (bs : List Nat)
    (hser : fmt.ser m = .ok bs) (hde : fmt.de bs = .ok m)
    (hlen : bs.length < 2 ^ 32) :
    generic_read_message fmt
        (generic_write_message fmt m emptyWriter).2.buf = .ok (m, []) := by
  rw [write_frame_eq fmt m emptyWriter bs hser hlen]
  have h := read_frame_eq fmt bs [] hlen
  rw [List.append_nil] at h
  show generic_read_message fmt ([] ++ writeU32Native bs.length ++ bs) = _
  rw [List.nil_append, h, hde]

/-- C1 witness: the crate's own test message round-trips. -/
theorem roundtrip_decode_encode_witness :
    generic_read_message MessageFmt
        (generic_write_message MessageFmt testMessage emptyWriter).2.buf
      = .ok (testMessage, []) :=
  roundtrip_decode_encode MessageFmt testMessage testJsonBytes
    (by decide) (by decide) (by decide)

/-- C2: length exactness.  For every message that encodes successfully,
the first 4 bytes of the produced buffer, read back as a native-endian
unsigned 32-bit integer, equal the total buffer length minus 4. -/
theorem length_field_exact (fmt : Format α) (m : α) (bs : List Nat)
    (hser : fmt.ser m = .ok bs) (hlen : bs.length < 2 ^ 32) :
    readU32Native ((generic_write_message fmt m emptyWriter).2.buf.take 4)
      = (generic_write_message fmt m emptyWriter).2.buf.length - 4 := by
  rw [write_frame_eq fmt m emptyWriter bs hser hlen]
  show readU32Native (([] ++ writeU32Native bs.length ++ bs).take 4)
    = ([] ++ writeU32Native bs.length ++ bs).length - 4
  rw [List.nil_append]
  have hlen4 : (writeU32Native bs.length).length = 4 := rfl
  have htake : (writeU32Native bs.length ++ bs).take 4
      = writeU32Native bs.length := by
    rw [← hlen4]; exact List.take_left _ _
  rw [htake, readU32_writeU32 bs.length hlen]
  simp [List.length_append, hlen4]

/-- C2 witness: the test message's buffer has length field 25 and total
length 29. -/
theorem length_field_exact_witness :
    readU32Native
        ((generic_write_message MessageFmt testMessage emptyWriter).2.buf.take 4)
      = (generic_write_message MessageFmt testMessage emptyWriter).2.buf.length
        - 4 :=
  length_field_exact MessageFmt testMessage testJsonBytes
    (by decide) (by decide)

/-- C3 counterexample: the claim "for every byte source whose 4-byte
header advertises length N but which supplies fewer than N payload bytes
before ending, decode fails and never returns a value" is false on the
code.  A header advertising 30 payload bytes followed by only the 13
bytes of the complete JSON document for the text "hi" decodes
successfully: the `take(N)` window simply ends early and
`serde_json::from_reader` sees a complete value followed by EOF. -/
theorem truncation_counterexample :
    readU32Native [30, 0, 0, 0] = 30
    ∧ ([123, 34, 116, 101, 120, 116, 34, 58, 34, 104, 105, 34, 125] :
        List Nat).length = 13
    ∧ generic_read_message MessageFmt
        ([30, 0, 0, 0]
          ++ [123, 34, 116, 101, 120, 116, 34, 58, 34, 104, 105, 34, 125])
      = .ok (⟨[104, 105]⟩, []) := by decide

/-- C3 (amended): for every byte source whose 4-byte header advertises
length N but which supplies fewer than N payload bytes before ending,
decode fails with the deserializer's error — the EOF (truncation) error
whenever the truncated prefix is not itself a complete value of the
format — and never returns a partial value; it can return a value only
when the supplied prefix already deserializes as a complete document. -/
theorem truncation_detected (fmt : Format α) (hdr body : List Nat)
    (e : JsonErr) (hh : hdr.length = 4)
    (hlt : body.length < readU32Native hdr)
    (hde : fmt.de body = .error e) :
    generic_read_message fmt (hdr ++ body) = .error (.Json e) := by
  have hnotlt : ¬ (hdr ++ body).length < 4 := by
    simp [List.length_append, hh]
  have htake : (hdr ++ body).take 4 = hdr := by
    rw [← hh]; exact List.take_left _ _
  have hdrop : (hdr ++ body).drop 4 = body := by
    rw [← hh]; exact List.drop_left _ _
  unfold generic_read_message
  rw [if_neg hnotlt, htake, hdrop,
    List.take_of_length_le (Nat.le_of_lt hlt), hde]

/-- C3 witness: the spec's own scenario — the source supplies only the
header declaring 5 payload bytes and then closes; decode fails with the
EOF (truncation) error, not a zero-length or partial value. -/
theorem truncation_detected_witness :
    generic_read_message MessageFmt [5, 0, 0, 0]
      = .error (.Json .eof) :=
  truncation_detected MessageFmt [5, 0, 0, 0] [] .eof
    (by decide) (by decide) (by decide)

/-- C4: no over-read.  Encoding two messages and concatenating the two
buffers into one source: the first decode returns the first message and
leaves exactly the second frame's bytes unconsumed, and decoding that
remainder returns the second message. -/
theorem no_overread_two_frames (fmt : Format α) (m₁ m₂ : α)
    (bs₁ bs₂ : List Nat)
    (hser₁ : fmt.ser m₁ = .ok bs₁) (hde₁ : fmt.de bs₁ = .ok m₁)
    (hlen₁ : bs₁.length < 2 ^ 32)
    (hser₂ : fmt.ser m₂ = .ok bs₂) (hde₂ : fmt.de bs₂ = .ok m₂)
    (hlen₂ : bs₂.length < 2 ^ 32) :
    generic_read_message fmt
        ((generic_write_message fmt m₁ emptyWriter).2.buf
          ++ (generic_write_message fmt m₂ emptyWriter).2.buf)
      = .ok (m₁, (generic_write_message fmt m₂ emptyWriter).2.buf)
    ∧ generic_read_message fmt
        (generic_write_message fmt m₂ emptyWriter).2.buf
      = .ok (m₂, []) := by
  rw [write_frame_eq fmt m₁ emptyWriter bs₁ hser₁ hlen₁,
    write_frame_eq fmt m₂ emptyWriter bs₂ hser₂ hlen₂]
  show generic_read_message fmt
      (([] ++ writeU32Native bs₁.length ++ bs₁)
        ++ ([] ++ writeU32Native bs₂.length ++ bs₂))
    = .ok (m₁, [] ++ writeU32Native bs₂.length ++ bs₂)
    ∧ generic_read_message fmt ([] ++ writeU32Native bs₂.length ++ bs₂)
      = .ok (m₂, [])
  rw [List.nil_append, List.nil_append]
  constructor
  · have h := read_frame_eq fmt bs₁ (writeU32Native bs₂.length ++ bs₂) hlen₁
    rw [h, hde₁]
  · have h := read_frame_eq fmt bs₂ [] hlen₂
    rw [List.append_nil] at h
    rw [h, hde₂]

/-- C4 witness: two concrete frames — the test message and the "hi"
message — concatenated into one source decode in order. -/
theorem no_overread_two_frames_witness :
    generic_read_message MessageFmt
        ((generic_write_message MessageFmt testMessage emptyWriter).2.buf
          ++ (generic_write_message MessageFmt ⟨[104, 105]⟩
                emptyWriter).2.buf)
      = .ok (testMessage,
          (generic_write_message MessageFmt ⟨[104, 105]⟩ emptyWriter).2.buf)
    ∧ generic_read_message MessageFmt
        (generic_write_message MessageFmt ⟨[104, 105]⟩ emptyWriter).2.buf
      = .ok (⟨[104, 105]⟩, []) :=
  no_overread_two_frames MessageFmt testMessage ⟨[104, 105]⟩
    testJsonBytes [123, 34, 116, 101, 120, 116, 34, 58, 34, 104, 105, 34, 125]
    (by decide) (by decide) (by decide)
    (by decide) (by decide) (by decide)

/-- C5: oversize rejection.  When the serialized payload does not fit
the unsigned 32-bit length field, `generic_write_message` fails with the
`TryFromInt` error (the spec's SizeError: the `len().try_into()`
narrowing fails) and the writer is completely unchanged — no byte is
written and no flush happens, since the narrowing precedes every write. -/
theorem oversize_rejected (fmt : Format α) (m : α) (w : ByteWriter)
    (bs : List Nat) (hser : fmt.ser m = .ok bs)
    (hlen : 2 ^ 32 ≤ bs.length) :
    generic_write_message fmt m w = (.error .TryFromInt, w) := by
  simp only [generic_write_message, hser]
  rw [if_neg (by omega)]

/-- C5 witness: a format whose serializer emits a `2 ^ 32`-byte payload
is rejected with the writer untouched. -/
theorem oversize_rejected_witness :
    generic_write_message BigFmt () emptyWriter
      = (.error .TryFromInt, emptyWriter) :=
  oversize_rejected BigFmt () emptyWriter (List.replicate (2 ^ 32) 48)
    rfl (by rw [List.length_replicate])

/-- C6: header read.  `generic_read_message` fails with the `Io` error
on every source shorter than 4 bytes; on sources of at least 4 bytes it
proceeds with the native-endian unsigned 32-bit interpretation `N` of
exactly the first 4 bytes, running the deserializer on the next
(at most) `N` bytes. -/
theorem header_read (fmt : Format α) (stream : List Nat) :
    (stream.length < 4 → generic_read_message fmt stream = .error .Io)
    ∧ (4 ≤ stream.length →
        generic_read_message fmt stream =
          match fmt.de
              ((stream.drop 4).take (readU32Native (stream.take 4))) with
          | .ok m =>
            .ok (m, (stream.drop 4).drop (readU32Native (stream.take 4)))
          | .error e => .error (.Json e)) := by
  constructor
  · intro h
    unfold generic_read_message
    rw [if_pos h]
  · intro h
    unfold generic_read_message
    rw [if_neg (by omega)]

/-- C6 witness: a source with only 2 bytes fails with the Io error. -/
theorem header_read_witness :
    generic_read_message MessageFmt [1, 2] = .error .Io :=
  (header_read MessageFmt [1, 2]).1 (by decide)

/-- C7: concrete scenario of the crate's `test_messaging`.  Encoding the
message whose text is "This is a test" yields exactly the 4-byte
native-endian length field followed by the 25 bytes of the compact JSON
document; the length field decodes to 25, the byte length of that JSON
text; and decoding the exact buffer returns the original message. -/
theorem concrete_scenario :
    generic_write_message MessageFmt testMessage emptyWriter
        = (.ok (), ⟨[25, 0, 0, 0] ++ testJsonBytes, 1⟩)
    ∧ readU32Native [25, 0, 0, 0] = testJsonBytes.length
    ∧ generic_read_message MessageFmt ([25, 0, 0, 0] ++ testJsonBytes)
        = .ok (testMessage, []) := by decide

/-- C8: write order and flush.  A successful `generic_write_message`
appends to the writer exactly the 4-byte native-endian length field
followed by the payload bytes — in that order, with nothing else — and
flushes the writer exactly once, after the payload, before returning
success. -/
theorem write_order_flush (fmt : Format α) (m : α) (w : ByteWriter)
    (bs : List Nat) (hser : fmt.ser m = .ok bs)
    (hlen : bs.length < 2 ^ 32) :
    generic_write_message fmt m w
      = (.ok (), ⟨w.buf ++ writeU32Native bs.length ++ bs,
          w.flushes + 1⟩) :=
  write_frame_eq fmt m w bs hser hlen

/-- C8 witness: writing the test message to a writer that already holds
one byte and two flushes appends the frame and flushes once more. -/
theorem write_order_flush_witness :
    generic_write_message MessageFmt testMessage ⟨[7], 2⟩
      = (.ok (), ⟨[7] ++ writeU32Native testJsonBytes.length
          ++ testJsonBytes, 2 + 1⟩) :=
  write_order_flush MessageFmt testMessage ⟨[7], 2⟩ testJsonBytes
    (by decide) (by decide)

/-- C9: bounded consumption.  For a source whose header declares `N`
and which holds at least `4 + N` bytes, appending arbitrary further
bytes never changes the outcome of `generic_read_message` (value or
error alike): the bytes beyond position `4 + N` are never read, on the
error path included. -/
theorem read_bounded_consumption (fmt : Format α) (s junk : List Nat)
    (h4 : 4 ≤ s.length)
    (hN : 4 + readU32Native (s.take 4) ≤ s.length) :
    (generic_read_message fmt (s ++ junk)).map Prod.fst
      = (generic_read_message fmt s).map Prod.fst := by
  have h1 : ¬ (s ++ junk).length < 4 := by
    rw [List.length_append]; omega
  have h2 : ¬ s.length < 4 := by omega
  have htake4 : (s ++ junk).take 4 = s.take 4 :=
    List.take_append_of_le_length h4
  have hdrop4 : (s ++ junk).drop 4 = s.drop 4 ++ junk :=
    List.drop_append_of_le_length h4
  have htakeN : (s.drop 4 ++ junk).take (readU32Native (s.take 4))
      = (s.drop 4).take (readU32Native (s.take 4)) :=
    List.take_append_of_le_length (by rw [List.length_drop]; omega)
  unfold generic_read_message
  rw [if_neg h1, if_neg h2, htake4, hdrop4, htakeN]
  cases hde : fmt.de ((s.drop 4).take (readU32Native (s.take 4))) with
  | ok m => rfl
  | error e => rfl

/-- C9 witness: appending two junk bytes after a complete frame does
not change the decoded outcome. -/
theorem read_bounded_consumption_witness :
    (generic_read_message MessageFmt
        (([25, 0, 0, 0] ++ testJsonBytes) ++ [9, 9])).map Prod.fst
      = (generic_read_message MessageFmt
          ([25, 0, 0, 0] ++ testJsonBytes)).map Prod.fst :=
  read_bounded_consumption MessageFmt ([25, 0, 0, 0] ++ testJsonBytes)
    [9, 9] (by decide) (by decide)

/-- C10: deterministic encoding.  The outcome of `generic_write_message`
— the produced bytes and the success or error value — is a function of
the serialized form of the message alone: in this pure embedding two
calls with equal serializer output (in particular two calls with the
same message against empty writers) produce byte-for-byte identical
buffers and identical results. -/
theorem write_deterministic (fmt fmt' : Format α) (m m' : α)
    (h : fmt.ser m = fmt'.ser m') (w : ByteWriter) :
    generic_write_message fmt m w = generic_write_message fmt' m' w := by
  unfold generic_write_message
  rw [h]

/-- C10 witness: two identical calls on empty writers agree. -/
theorem write_deterministic_witness :
    generic_write_message MessageFmt testMessage emptyWriter
      = generic_write_message MessageFmt testMessage emptyWriter :=
  write_deterministic MessageFmt MessageFmt testMessage testMessage
    rfl emptyWriter
